import Mathlib

/-!
Shallow embedding of the status reconciliation and adaptive-refresh engine of
`custom_components/flight_dashboard/status_manager.py`.

Modelling conventions:

* A timezone-aware instant is modelled as an `Int` of UTC epoch seconds.  The
  source converts every instant to UTC (`dt_util.as_utc`) before comparing, so
  on aware instants those conversions are the identity and arithmetic on epoch
  seconds is exact.  `timedelta(hours=1)` becomes the integer `3600`, etc.
* An optional field of a record or payload is an `Option`; `none` models an
  absent key, a `None` value, or a falsy value (the source tests truthiness
  with `if not val` / `or` chains, and empty strings behave like absent ones).
* A named airport timezone (`dep.airport.tz`, a zone name fed to `ZoneInfo`)
  is modelled by its fixed UTC offset in seconds; `none` models a missing or
  unknown zone (where the source keeps the instant's own zone, i.e. UTC here).
* Instants stored in records and payloads are modelled post-parse as
  `Option Int` (the source re-parses strings with `_parse_dt` at each use; an
  unparseable value yields `None`, i.e. `none` here).  The parser itself is
  modelled separately on a `PyVal` type for the claims about it.
* Python's `round` rounds a `.5` tie to the even integer; `pyRoundDiv60`
  reproduces this for a duration of an integer number of seconds divided
  by sixty.
-/

namespace FlightStatus

/-- One side block (`dep` or `arr`) of a flight record: the schedule instants,
the manual `scheduled_local` field and the airport timezone (modelled as a
fixed UTC offset in seconds). -/
structure Side where
  scheduled : Option Int := none
  estimated : Option Int := none
  actual : Option Int := none
  scheduled_local : Option Int := none
  airport_tz : Option Int := none
deriving Repr, DecidableEq

/-- A normalized status payload as returned by a provider adapter or held in
the status cache (the keys the engine reads). -/
structure Status where
  provider : Option String := none
  state : Option String := none
  provider_state : Option String := none
  dep_scheduled : Option Int := none
  dep_estimated : Option Int := none
  dep_actual : Option Int := none
  arr_scheduled : Option Int := none
  arr_estimated : Option Int := none
  arr_actual : Option Int := none
  dep_iata : Option String := none
  arr_iata : Option String := none
  position : Option String := none
  position_provider : Option String := none
  error : Option String := none
  error_code : Option String := none
  error_message : Option String := none
  detail : Option String := none
  retry_after : Option String := none
deriving Repr, DecidableEq

/-- The empty status payload (an empty Python dict). -/
def emptyStatus : Status := {}

/-- Truthiness of a status dict: a Python dict is truthy iff it has at least
one key, i.e. at least one field is present here. -/
def Status.nonEmpty (s : Status) : Bool :=
  s.provider.isSome || s.state.isSome || s.provider_state.isSome ||
  s.dep_scheduled.isSome || s.dep_estimated.isSome || s.dep_actual.isSome ||
  s.arr_scheduled.isSome || s.arr_estimated.isSome || s.arr_actual.isSome ||
  s.dep_iata.isSome || s.arr_iata.isSome || s.position.isSome ||
  s.position_provider.isSome || s.error.isSome || s.error_code.isSome ||
  s.error_message.isSome || s.detail.isSome || s.retry_after.isSome

/-- A flight record: the two side blocks, the status block, and the
engine-owned derived fields. -/
structure Flight where
  dep : Side := {}
  arr : Side := {}
  status_state : Option String := none
  status : Option Status := none
  status_updated_at : Option Int := none
  position : Option String := none
  delay_status : Option String := none
  delay_status_key : Option String := none
  delay_minutes : Option Int := none
  duration_scheduled_minutes : Option Int := none
  duration_estimated_minutes : Option Int := none
  duration_actual_minutes : Option Int := none
  duration_minutes : Option Int := none
deriving Repr, DecidableEq

/-- Embeds `_best_time(flight, side, ["actual", "estimated", "scheduled"])`:
the first present instant in priority order, coerced to UTC (identity in this
model). -/
def bestTime (s : Side) : Option Int :=
  s.actual.orElse fun _ => s.estimated.orElse fun _ => s.scheduled

/-- Python's `str.lower()` (structural on the character list, so that the
kernel can evaluate it on literals). -/
def pyLower (s : String) : String :=
  ⟨s.data.map Char.toLower⟩

/-- The lowercased coarse state, `(flight.get("status_state") or
"unknown").lower()`. -/
def stateLower (f : Flight) : String :=
  pyLower (f.status_state.getD "unknown")

/-- Python's `int(round(sec / 60))` for an integer number of seconds `sec`:
rounding to the nearest integer with a `.5` tie going to the even integer. -/
def pyRoundDiv60 (sec : Int) : Int :=
  let q := sec.ediv 60
  let r := sec.emod 60
  if r < 30 then q
  else if r > 30 then q + 1
  else if q.emod 2 = 0 then q else q + 1

/-- Embeds the far-future tier chain of `compute_next_refresh_seconds` for a
flight strictly before departure but outside the final-hour window
(`delta = dep - now`): `> 6h -> 6h`, `> 2h -> 30min`, else `10min`, each
floored by the ttl. -/
def tierBeforeDep (ttlSeconds delta : Int) : Int :=
  if delta > 21600 then max ttlSeconds 21600
  else if delta > 7200 then max ttlSeconds 1800
  else max ttlSeconds 600

/-- Embeds the trailing state-dependent branches of
`compute_next_refresh_seconds` (reached when no departure/arrival branch
returned): terminal coarse state stops refreshing, `diverted` is treated as
in-flight, otherwise an hourly fallback. -/
def afterBranches (state : String) (ttlSeconds : Int) : Option Int :=
  if state = "arrived" ∨ state = "cancelled" ∨ state = "landed" then none
  else if state = "diverted" then some (max ttlSeconds 900)
  else some (max ttlSeconds 3600)

/-- Embeds `compute_next_refresh_seconds(flight, now, ttl_minutes)`.  The
source guards each branch on the truthiness of `dep` / `arr`; the four-way
match spells those guards out, keeping the source's branch order:
no instants -> `None`; arrival more than an hour past -> `None`; within one
hour of departure and not past arrival -> 15 min; before departure -> tiers;
then the state-dependent branches. -/
def compute_next_refresh_seconds (f : Flight) (now ttl_minutes : Int) : Option Int :=
  let ttlSeconds := max 60 (ttl_minutes * 60)
  let state := stateLower f
  match bestTime f.dep, bestTime f.arr with
  | none, none => none
  | some d, none =>
      if now ≥ d - 3600 then some (max ttlSeconds 900)
      else if now < d then some (tierBeforeDep ttlSeconds (d - now))
      else afterBranches state ttlSeconds
  | none, some a =>
      if now > a + 3600 then none
      else afterBranches state ttlSeconds
  | some d, some a =>
      if now > a + 3600 then none
      else if now ≥ d - 3600 ∧ now ≤ a then some (max ttlSeconds 900)
      else if now < d then some (tierBeforeDep ttlSeconds (d - now))
      else afterBranches state ttlSeconds

/-- Embeds `_compute_delay_status(flight, grace_minutes)`: `Cancelled` first,
then the (scheduled, actual-or-estimated) reference pair preferring arrival,
then the rounded minute delta against the grace threshold. -/
def compute_delay_status (f : Flight) (grace_minutes : Int) : String × Option Int :=
  let state := stateLower f
  if state = "cancelled" ∨ state = "canceled" then ("Cancelled", none)
  else
    let depSched := f.dep.scheduled
    let depEst := f.dep.actual.orElse fun _ => f.dep.estimated
    let arrSched := f.arr.scheduled
    let arrEst := f.arr.actual.orElse fun _ => f.arr.estimated
    let ref : Option (Int × Int) :=
      match arrSched, arrEst with
      | some s, some e => some (s, e)
      | _, _ =>
        match depSched, depEst with
        | some s, some e => some (s, e)
        | _, _ => none
    match ref with
    | none => ("Unknown", none)
    | some (s, e) =>
      let minutes := pyRoundDiv60 (e - s)
      if minutes > grace_minutes then ("Delayed", some minutes)
      else ("On Time", some minutes)

/-- Embeds `_duration_minutes(dep_dt, arr_dt)`: `None` when an endpoint is
missing or the delta is negative, else the rounded minute delta. -/
def duration_minutes (dep_dt arr_dt : Option Int) : Option Int :=
  match dep_dt, arr_dt with
  | some d, some a =>
      if a - d < 0 then none else some (pyRoundDiv60 (a - d))
  | _, _ => none

/-- The four duration fields computed by `_compute_durations`. -/
structure Durations where
  duration_scheduled_minutes : Option Int
  duration_estimated_minutes : Option Int
  duration_actual_minutes : Option Int
  duration_minutes : Option Int
deriving Repr, DecidableEq

/-- Embeds `_compute_durations(flight)`: scheduled, estimated
(actual-or-estimated on both ends) and actual (actual-only) durations, and
the best of the three. -/
def compute_durations (f : Flight) : Durations :=
  let depSched := f.dep.scheduled
  let arrSched := f.arr.scheduled
  let depEst := f.dep.actual.orElse fun _ => f.dep.estimated
  let arrEst := f.arr.actual.orElse fun _ => f.arr.estimated
  let depAct := f.dep.actual
  let arrAct := f.arr.actual
  let scheduled := duration_minutes depSched arrSched
  let estimated := duration_minutes depEst arrEst
  let actual := duration_minutes depAct arrAct
  let best := actual.orElse fun _ => estimated.orElse fun _ => scheduled
  { duration_scheduled_minutes := scheduled
    duration_estimated_minutes := estimated
    duration_actual_minutes := actual
    duration_minutes := best }

/-- The `delay_status_key` derivation:
`(delay_state or "unknown").lower().replace(" ", "_")`. -/
def delayKey (s : String) : String :=
  ⟨(pyLower s).data.map fun c => if c = ' ' then '_' else c⟩

/-- Embeds the derived-field block the engine runs after every apply (cached
or fetched): write `delay_status`, `delay_status_key`, `delay_minutes` and the
four duration fields into the record. -/
def computeDerived (f : Flight) (grace_minutes : Int) : Flight :=
  let d := compute_delay_status f grace_minutes
  let dur := compute_durations f
  { f with
    delay_status := some d.1
    delay_status_key := some (delayKey d.1)
    delay_minutes := d.2
    duration_scheduled_minutes := dur.duration_scheduled_minutes
    duration_estimated_minutes := dur.duration_estimated_minutes
    duration_actual_minutes := dur.duration_actual_minutes
    duration_minutes := dur.duration_minutes }

/-- Embeds `_coerce_state_by_time(flight, now, future_grace_minutes)`: an
en-route/arrived/cancelled state with the best departure instant still more
than the grace window in the future is forced back to `Scheduled`. -/
def coerce_state_by_time (f : Flight) (now future_grace_minutes : Int) : Flight :=
  let state := stateLower f
  if state = "en route" ∨ state = "arrived" ∨ state = "cancelled" ∨ state = "canceled" then
    match bestTime f.dep with
    | none => f
    | some dep =>
      if now < dep - future_grace_minutes * 60 then
        { f with status_state := some "Scheduled" }
      else f
  else f

/-- Embeds `_apply_assumed_arrival(flight, now, grace_minutes)`: when the
provider has gone silent past arrival plus the grace window, force `Arrived`
and tag the status with an `assumed_arrival` error marker. -/
def apply_assumed_arrival (f : Flight) (now grace_minutes : Int) : Flight :=
  let state := stateLower f
  if state = "arrived" ∨ state = "cancelled" ∨ state = "canceled" ∨ state = "landed" then f
  else
    match bestTime f.arr with
    | none => f
    | some arr =>
      if now ≤ arr + grace_minutes * 60 then f
      else
        let silent : Bool :=
          match f.status_updated_at with
          | some u => decide (u < arr + grace_minutes * 60)
          | none => true
        if silent then
          let st := f.status.getD emptyStatus
          let st := { st with
            provider := some (st.provider.getD "unknown")
            error := some "assumed_arrival"
            error_message := some "No provider update after arrival; assumed Arrived." }
          { f with status_state := some "Arrived", status := some st }
        else f

/-- Embeds `_date_in_tz(val, tzname)` on an already-parsed aware instant: the
calendar date (as an epoch day number) of the instant shifted into the named
zone, the zone modelled as a fixed UTC offset (`none` = missing or unknown
zone, where the source keeps the instant's own zone, UTC here). -/
def date_in_tz (val : Option Int) (tz : Option Int) : Option Int :=
  match val with
  | none => none
  | some t => some ((t + tz.getD 0).fdiv 86400)

/-- Embeds `_status_date_mismatch(flight, status)`: compare the record's own
scheduled departure date with the date implied by the status's first present
departure instant, both projected into the departure airport's zone. -/
def status_date_mismatch (f : Flight) (s : Status) : Bool :=
  let tz := f.dep.airport_tz
  let flightDep := f.dep.scheduled_local.orElse fun _ => f.dep.scheduled
  let statusDep := s.dep_scheduled.orElse fun _ =>
    s.dep_estimated.orElse fun _ => s.dep_actual
  match flightDep, statusDep with
  | some fd, some sd =>
    match date_in_tz (some fd) tz, date_in_tz (some sd) tz with
    | some a, some b => a ≠ b
    | _, _ => false
  | _, _ => false

/-- Modelled from the spec: `status_resolver.apply_status` is repository code
not under `src/` (only its caller is).  The spec says the engine applies the
status payload's fields onto the record — the coarse `status_state` from the
payload's `state`, and the estimated/actual instants onto the matching side
blocks — leaving record fields alone where the payload has nothing. -/
def apply_status (f : Flight) (s : Status) : Flight :=
  { f with
    status_state := s.state.orElse fun _ => f.status_state
    dep := { f.dep with
      scheduled := s.dep_scheduled.orElse fun _ => f.dep.scheduled
      estimated := s.dep_estimated.orElse fun _ => f.dep.estimated
      actual := s.dep_actual.orElse fun _ => f.dep.actual }
    arr := { f.arr with
      scheduled := s.arr_scheduled.orElse fun _ => f.arr.scheduled
      estimated := s.arr_estimated.orElse fun _ => f.arr.estimated
      actual := s.arr_actual.orElse fun _ => f.arr.actual } }

/-- The error-metadata splice of the no-signal branch: for each of `error`,
`error_code`, `error_message`, `detail`, `retry_after`, copy the fetched
payload's value over the previous status when it is not `None`. -/
def spliceErrorMeta (prev status : Status) : Status :=
  { prev with
    error := status.error.orElse fun _ => prev.error
    error_code := status.error_code.orElse fun _ => prev.error_code
    error_message := status.error_message.orElse fun _ => prev.error_message
    detail := status.detail.orElse fun _ => prev.detail
    retry_after := status.retry_after.orElse fun _ => prev.retry_after }

/-- Truthiness of the informative fields of a fetched payload,
`any(status.get(k) for k in ("provider_state", "dep_estimated",
"arr_estimated", "dep_actual", "arr_actual", "position", "arr_iata",
"dep_iata"))`. -/
def hasSignal (status : Status) : Bool :=
  status.provider_state.isSome || status.dep_estimated.isSome ||
  status.arr_estimated.isSome || status.dep_actual.isSome ||
  status.arr_actual.isSome || status.position.isSome ||
  status.arr_iata.isSome || status.dep_iata.isSome

/-- Embeds the merge step of the fetch pass for one due record (the part of
`async_update_statuses` after the provider calls returned `status?` and
`position`): the error/no-signal retention branch, the apply branch, the
position-only branch (backfill to the manual store is a collaborator
write-through, not record state), the synthesized `no_status` error, the
trailing assumed-arrival pass and the derived-field block. -/
def fetchMergeStep (f : Flight) (status? : Option Status) (position : Option String)
    (now : Int) (statusProvider positionProvider : String) (grace_minutes : Int) : Flight :=
  let f1 :=
    match status? with
    | some status =>
      if status.error.isSome then
        let prev := f.status.getD emptyStatus
        if prev.nonEmpty && !hasSignal status then
          let prev := { prev with provider := some (prev.provider.getD statusProvider) }
          let prev := spliceErrorMeta prev status
          { f with status := some prev, status_updated_at := some now }
        else
          let status :=
            if position.isSome then
              { status with position := position, position_provider := some positionProvider }
            else status
          let f2 := { f with status := some status, status_updated_at := some now }
          let f3 := apply_status f2 status
          let f4 := coerce_state_by_time f3 now 90
          apply_assumed_arrival f4 now 15
      else
        let status :=
          if position.isSome then
            { status with position := position, position_provider := some positionProvider }
          else status
        let f2 := { f with status := some status, status_updated_at := some now }
        let f3 := apply_status f2 status
        let f4 := coerce_state_by_time f3 now 90
        apply_assumed_arrival f4 now 15
    | none =>
      match position with
      | some pos => { f with position := some pos }
      | none =>
        let prev := f.status.getD emptyStatus
        let prev := { prev with
          provider := some (prev.provider.getD statusProvider)
          error := some "no_status"
          error_message := some "Provider returned no status" }
        { f with status := some prev, status_updated_at := some now }
  let f5 := apply_assumed_arrival f1 now 15
  computeDerived f5 grace_minutes

/-- A status-cache entry, `{status, updated_at, next_check}`. -/
structure CacheEntry where
  status : Option Status := none
  updated_at : Option Int := none
  next_check : Option Int := none
deriving Repr, DecidableEq

/-- Observable outcome of one iteration of the apply-cached pass: the mutated
record, whether the cache entry was popped, the status that was applied onto
the record (if any), and the final value of the `status_provider` local. -/
structure CachedApplyOut where
  flight : Flight
  popped : Bool
  applied : Option Status
  bound : Option String
deriving Repr, DecidableEq

/-- Embeds the mismatch pre-check of the apply-cached pass (source lines
273-279): a cached dict status failing `_status_date_mismatch` is replaced by
a `date_mismatch` error dict built from the `status_provider` local — which at
that point is only bound if a *previous* iteration assigned it, so an unbound
local (`bound = none`) raises (`Except.error`, Python's UnboundLocalError). -/
def dateMismatchReplace (f : Flight) (status? : Option Status) (bound : Option String) :
    Except Unit (Option Status) :=
  match status? with
  | some s =>
    if status_date_mismatch f s then
      match bound with
      | none => .error ()
      | some p => .ok (some { emptyStatus with
          provider := some p
          error := some "date_mismatch"
          error_message := some "Provider returned status for different operating date" })
    else .ok status?
  | none => .ok status?

/-- Embeds one iteration of the apply-cached pass of `async_update_statuses`
(source lines 265-300) for a record with a cache entry: the mismatch
pre-check, the provider-mismatch eviction, the (second) date-mismatch
eviction, the apply of the cached status with the correction passes, and the
derived-field block. -/
def applyCachedStep (f : Flight) (cached : CacheEntry) (configuredProvider : Option String)
    (bound : Option String) (now grace_minutes : Int) : Except Unit CachedApplyOut :=
  match dateMismatchReplace f cached.status bound with
  | .error e => .error e
  | .ok status? =>
    match status? with
    | some s =>
      let sp := pyLower (s.provider.getD "")
      let cp := pyLower (configuredProvider.getD "flightradar24")
      if sp ≠ "" ∧ sp ≠ cp then
        .ok { flight := f, popped := true, applied := none, bound := some sp }
      else if status_date_mismatch f s then
        .ok { flight := f, popped := true, applied := none, bound := some sp }
      else
        let f1 := { f with status := some s, status_updated_at := cached.updated_at }
        let f2 := apply_status f1 s
        let f3 := coerce_state_by_time f2 now 90
        let f4 := apply_assumed_arrival f3 now 15
        .ok { flight := computeDerived f4 grace_minutes, popped := false,
              applied := some s, bound := some sp }
    | none =>
      .ok { flight := computeDerived f grace_minutes, popped := false,
            applied := none, bound := bound }

/-- A Python value fed to `_parse_dt`: `None`, an already-typed datetime, a
string, or anything else. -/
inductive PyVal where
  | pynone
  | pydt (t : Int)
  | pystr (s : String)
  | pyother
deriving Repr, DecidableEq

/-- Splitting a character list at every occurrence of a separator character
(Python `str.split(sep)` for a one-character separator, which is all the
source's separators are). -/
def splitOnChar (c : Char) : List Char -> List (List Char)
  | [] => [[]]
  | x :: xs =>
    let rest := splitOnChar c xs
    if x = c then [] :: rest
    else
      match rest with
      | [] => [[x]]
      | y :: ys => (x :: y) :: ys

/-- The value of a decimal digit character. -/
def digitVal (c : Char) : Option Nat :=
  if '0' <= c && c <= '9' then some (c.toNat - '0'.toNat) else none

/-- The value of a list of decimal digit characters; `none` on any
non-digit, so signs and blanks are rejected. -/
def digitsValAux : List Char -> Nat -> Option Nat
  | [], acc => some acc
  | c :: cs, acc =>
    match digitVal c with
    | some d => digitsValAux cs (acc * 10 + d)
    | none => none

/-- A field of exactly `n` decimal digits, as an `Int`. -/
def fixedDigits (n : Nat) (l : List Char) : Option Int :=
  if l.length = n then (digitsValAux l 0).map Int.ofNat else none

/-- Gregorian leap-year test. -/
def isLeap (y : Int) : Bool :=
  (y.emod 4 = 0 && y.emod 100 != 0) || y.emod 400 = 0

/-- Days in a Gregorian month. -/
def daysInMonth (y m : Int) : Int :=
  if m = 2 then (if isLeap y then 29 else 28)
  else if m = 4 ∨ m = 6 ∨ m = 9 ∨ m = 11 then 30
  else 31

/-- Days from 1970-01-01 to the given Gregorian date (civil-days algorithm,
floor divisions). -/
def daysFromCivil (y m d : Int) : Int :=
  let y2 := if m <= 2 then y - 1 else y
  let era := y2.fdiv 400
  let yoe := y2 - era * 400
  let mp := if m > 2 then m - 3 else m + 9
  let doy := (153 * mp + 2).fdiv 5 + d - 1
  let doe := yoe * 365 + yoe.fdiv 4 - yoe.fdiv 100 + doy
  era * 146097 + doe - 719468

/-- Parse a `YYYY-MM-DD` date into epoch days, range-checking month and day
as `datetime.fromisoformat` does. -/
def parseDatePart (l : List Char) : Option Int :=
  match splitOnChar '-' l with
  | [ys, ms, ds] =>
    match fixedDigits 4 ys, fixedDigits 2 ms, fixedDigits 2 ds with
    | some y, some m, some d =>
      if 1 <= m ∧ m <= 12 ∧ 1 <= d ∧ d <= daysInMonth y m then
        some (daysFromCivil y m d)
      else none
    | _, _, _ => none
  | _ => none

/-- Parse an `HH:MM:SS` clock time into seconds of day. -/
def parseClock (l : List Char) : Option Int :=
  match splitOnChar ':' l with
  | [hs, ms, ss] =>
    match fixedDigits 2 hs, fixedDigits 2 ms, fixedDigits 2 ss with
    | some h, some m, some sec =>
      if h <= 23 ∧ m <= 59 ∧ sec <= 59 then some (h * 3600 + m * 60 + sec)
      else none
    | _, _, _ => none
  | _ => none

/-- Parse an `HH:MM` UTC-offset suffix into signed seconds. -/
def parseOffsetPart (sign : Int) (l : List Char) : Option Int :=
  match splitOnChar ':' l with
  | [hs, ms] =>
    match fixedDigits 2 hs, fixedDigits 2 ms with
    | some h, some m =>
      if h <= 23 ∧ m <= 59 then some (sign * (h * 3600 + m * 60)) else none
    | _, _ => none
  | _ => none

/-- Split the time part of an ISO string into clock seconds and UTC offset; a
suffix-free (naive) time is kept as-is, i.e. at offset zero in this UTC
model. -/
def parseTimePart (ts : List Char) : Option (Int × Int) :=
  if ts.contains '+' then
    match splitOnChar '+' ts with
    | [a, b] => do
      let t <- parseClock a
      let o <- parseOffsetPart 1 b
      pure (t, o)
    | _ => none
  else if ts.contains '-' then
    match splitOnChar '-' ts with
    | [a, b] => do
      let t <- parseClock a
      let o <- parseOffsetPart (-1) b
      pure (t, o)
    | _ => none
  else
    (parseClock ts).map fun t => (t, 0)

/-- Replace every `Z` with `+00:00` (`val.replace("Z", "+00:00")`). -/
def replaceZ : List Char -> List Char
  | [] => []
  | c :: cs =>
    if c = 'Z' then '+' :: '0' :: '0' :: ':' :: '0' :: '0' :: replaceZ cs
    else c :: replaceZ cs

/-- ISO-8601 `YYYY-MM-DDTHH:MM:SS` with an optional `+HH:MM`/`-HH:MM` offset,
to UTC epoch seconds.  Models the accepting grammar shared by
`homeassistant.util.dt.parse_datetime` and `datetime.fromisoformat` on the
timestamp shapes this integration exchanges; anything else yields `none`. -/
def parseIso (l : List Char) : Option Int :=
  match splitOnChar 'T' l with
  | [ds, ts] => do
    let days <- parseDatePart ds
    let (sec, off) <- parseTimePart ts
    pure (days * 86400 + sec - off)
  | _ => none

/-- Embeds `_parse_dt(val)`: `None` for falsy values (including the empty
string), the value itself for an already-typed datetime, the ISO parse --
after replacing a `Z` suffix with `+00:00` -- for a string (all parse
failures, which the source catches, become `none`), and `None` for any other
type. -/
def parse_dt (v : PyVal) : Option Int :=
  match v with
  | .pynone => none
  | .pydt t => some t
  | .pystr s =>
    if s = "" then none
    else parseIso (replaceZ s.data)
  | .pyother => none

section Theorems

/-- The pre-departure tier chain never returns less than the ttl floor or
less than ten minutes. -/
theorem tierBeforeDep_bounds (t d : Int) :
    t ≤ tierBeforeDep t d ∧ 600 ≤ tierBeforeDep t d := by
  unfold tierBeforeDep
  split_ifs <;> exact ⟨le_max_left _ _, le_trans (by norm_num) (le_max_right _ _)⟩

/-- The pre-departure tier chain is monotone in the distance to departure. -/
theorem tierBeforeDep_mono (t d1 d2 : Int) (h : d2 ≤ d1) :
    tierBeforeDep t d2 ≤ tierBeforeDep t d1 := by
  unfold tierBeforeDep
  split_ifs <;> first
    | (apply max_le_max le_rfl; decide)
    | (exfalso; omega)

/-- The state-dependent fallback branches never return less than the ttl
floor or less than ten minutes. -/
theorem afterBranches_bounds (st : String) (t s : Int)
    (h : afterBranches st t = some s) : t ≤ s ∧ 600 ≤ s := by
  unfold afterBranches at h
  split_ifs at h
  · obtain rfl : s = max t 900 := (Option.some.inj h).symm
    exact ⟨le_max_left _ _, le_trans (by norm_num) (le_max_right _ _)⟩
  · obtain rfl : s = max t 3600 := (Option.some.inj h).symm
    exact ⟨le_max_left _ _, le_trans (by norm_num) (le_max_right _ _)⟩

/-- Claim C10: every interval `compute_next_refresh_seconds` returns is at
least `max(60, 60 * ttl_minutes)` seconds and in all cases at least 600
seconds, so a flight is never scheduled for re-polling more often than every
ten minutes regardless of configuration. -/
theorem refresh_interval_floor (f : Flight) (now ttl s : Int)
    (h : compute_next_refresh_seconds f now ttl = some s) :
    max 60 (60 * ttl) ≤ s ∧ 600 ≤ s := by
  have hmax : max 60 (60 * ttl) = max 60 (ttl * 60) := by rw [mul_comm]
  rw [hmax]
  rcases hd : bestTime f.dep with _ | d <;> rcases ha : bestTime f.arr with _ | a <;>
      simp only [compute_next_refresh_seconds, hd, ha] at h
  · exact absurd h (by simp)
  · split_ifs at h
    exact afterBranches_bounds _ _ _ h
  · split_ifs at h
    · obtain rfl : s = max (max 60 (ttl * 60)) 900 := (Option.some.inj h).symm
      exact ⟨le_max_left _ _, le_trans (by norm_num) (le_max_right _ _)⟩
    · obtain rfl : s = tierBeforeDep (max 60 (ttl * 60)) (d - now) := (Option.some.inj h).symm
      exact tierBeforeDep_bounds _ _
    · exact afterBranches_bounds _ _ _ h
  · split_ifs at h
    · obtain rfl : s = max (max 60 (ttl * 60)) 900 := (Option.some.inj h).symm
      exact ⟨le_max_left _ _, le_trans (by norm_num) (le_max_right _ _)⟩
    · obtain rfl : s = tierBeforeDep (max 60 (ttl * 60)) (d - now) := (Option.some.inj h).symm
      exact tierBeforeDep_bounds _ _
    · exact afterBranches_bounds _ _ _ h

/-- Witness for C10: a concrete flight one half hour before departure with a
five-minute ttl gets a 900-second interval, which is at least
`max(60, 60 * 5)` and at least 600. -/
theorem refresh_interval_floor_witness :
    max 60 (60 * 5) ≤ (900 : Int) ∧ (600 : Int) ≤ 900 :=
  refresh_interval_floor { dep := { scheduled := some 100000 } } 98200 5 900 (by decide)

/-- A flight with only a scheduled departure instant, for the scheduler
monotonicity analysis. -/
def depOnlyFlight : Flight := { dep := { scheduled := some 100000 } }

/-- Counterexample to claim C1 as stated: with a known departure at 100000
and a one-minute ttl, the call 90 minutes before departure returns 600
seconds but the later call 30 minutes before departure returns 900 seconds —
the interval increases between two instants that are both strictly before
departure, so `compute_next_refresh_seconds` is not monotonically
non-increasing in `now` over all instants before departure. -/
theorem refresh_monotone_counterexample :
    bestTime depOnlyFlight.dep = some 100000 ∧
    (94600 : Int) ≤ 98200 ∧ (98200 : Int) < 100000 ∧
    compute_next_refresh_seconds depOnlyFlight 94600 1 = some 600 ∧
    compute_next_refresh_seconds depOnlyFlight 98200 1 = some 900 ∧
    ¬ (900 : Int) ≤ 600 := by
  refine ⟨by decide, by decide, by decide, by decide, by decide, by decide⟩

/-- Claim C1 amended: for a flight with a known best departure instant, the
interval returned by `compute_next_refresh_seconds` is monotonically
non-increasing in `now` over all instants strictly earlier than one hour
before departure (whenever both calls return an interval); crossing into the
final hour before departure the interval may step up once, from the
ten-minute tier to the fifteen-minute in-flight floor, as the
counterexample shows. -/
theorem refresh_monotone_before_final_hour (f : Flight) (d now1 now2 ttl i1 i2 : Int)
    (hdep : bestTime f.dep = some d)
    (h12 : now1 ≤ now2) (h2 : now2 < d - 3600)
    (r1 : compute_next_refresh_seconds f now1 ttl = some i1)
    (r2 : compute_next_refresh_seconds f now2 ttl = some i2) :
    i2 ≤ i1 := by
  rcases ha : bestTime f.arr with _ | a <;>
      simp only [compute_next_refresh_seconds, hdep, ha] at r1 r2
  · rw [if_neg (by omega), if_pos (by omega)] at r1 r2
    obtain rfl : i1 = tierBeforeDep (max 60 (ttl * 60)) (d - now1) := (Option.some.inj r1).symm
    obtain rfl : i2 = tierBeforeDep (max 60 (ttl * 60)) (d - now2) := (Option.some.inj r2).symm
    exact tierBeforeDep_mono _ _ _ (by omega)
  · have ha2 : ¬ now2 > a + 3600 := by
      intro hgt
      rw [if_pos hgt] at r2
      exact Option.noConfusion r2
    have ha1 : ¬ now1 > a + 3600 := by omega
    rw [if_neg ha1, if_neg (by omega), if_pos (by omega)] at r1
    rw [if_neg ha2, if_neg (by omega), if_pos (by omega)] at r2
    obtain rfl : i1 = tierBeforeDep (max 60 (ttl * 60)) (d - now1) := (Option.some.inj r1).symm
    obtain rfl : i2 = tierBeforeDep (max 60 (ttl * 60)) (d - now2) := (Option.some.inj r2).symm
    exact tierBeforeDep_mono _ _ _ (by omega)

/-- Witness for the amended C1: between 26.4 hours and 1.5 hours before the
concrete departure the interval drops from 21600 to 600 seconds,
non-increasing as required. -/
theorem refresh_monotone_before_final_hour_witness : (600 : Int) ≤ 21600 :=
  refresh_monotone_before_final_hour depOnlyFlight 100000 5000 94600 1 21600 600
    (by decide) (by decide) (by decide) (by decide) (by decide)

/-- A cancelled flight whose departure is still far in the future. -/
def cancelledFutureFlight : Flight :=
  { dep := { scheduled := some 1000000 }, status_state := some "cancelled" }

/-- Counterexample to claim C4 as stated: a flight whose coarse state is the
terminal `cancelled` but whose departure instant is still in the future gets
a 21600-second interval, not `None` — the terminal-state check sits after
the departure-phase branches, so it does not apply at every current time. -/
theorem refresh_none_counterexample :
    stateLower cancelledFutureFlight = "cancelled" ∧
    compute_next_refresh_seconds cancelledFutureFlight 0 5 = some 21600 := by
  refine ⟨by decide, by decide⟩

/-- Claim C4 amended: `compute_next_refresh_seconds` returns `None` when (i)
neither a departure nor an arrival instant can be resolved; (ii) an arrival
instant is known and `now` is more than the one-hour terminal grace window
past it; (iii) the coarse state is terminal (arrived/cancelled/landed) *and*
the departure-phase branches no longer apply — the arrival instant is known
and already past, and any known departure instant is not in the future.
(Unamended (iii) fails: see the counterexample.) -/
theorem refresh_none_cases (f : Flight) (now ttl : Int) :
    (bestTime f.dep = none → bestTime f.arr = none →
      compute_next_refresh_seconds f now ttl = none) ∧
    (∀ a, bestTime f.arr = some a → a + 3600 < now →
      compute_next_refresh_seconds f now ttl = none) ∧
    ((stateLower f = "arrived" ∨ stateLower f = "cancelled" ∨ stateLower f = "landed") →
      ∀ a, bestTime f.arr = some a → a < now →
      (∀ d, bestTime f.dep = some d → d ≤ now) →
      compute_next_refresh_seconds f now ttl = none) := by
  refine ⟨?_, ?_, ?_⟩
  · intro hd ha
    simp [compute_next_refresh_seconds, hd, ha]
  · intro a ha hpast
    rcases hd : bestTime f.dep with _ | d <;>
        simp only [compute_next_refresh_seconds, hd, ha] <;>
      rw [if_pos (by omega)]
  · intro hterm a ha hpast hdep
    have hnone : afterBranches (stateLower f) (max 60 (ttl * 60)) = none := by
      unfold afterBranches
      rw [if_pos hterm]
    rcases hd : bestTime f.dep with _ | d <;>
        simp only [compute_next_refresh_seconds, hd, ha]
    · by_cases hfar : now > a + 3600
      · rw [if_pos hfar]
      · rw [if_neg hfar]
        exact hnone
    · have hdnow := hdep d hd
      by_cases hfar : now > a + 3600
      · rw [if_pos hfar]
      · rw [if_neg hfar, if_neg (by omega), if_neg (by omega)]
        exact hnone

/-- Witness for the amended C4: a cancelled flight with departure at 5 and
arrival at 8 is no longer scheduled at `now = 10`. -/
theorem refresh_none_cases_witness :
    compute_next_refresh_seconds
      { dep := { scheduled := some 5 }, arr := { scheduled := some 8 },
        status_state := some "cancelled" } 10 5 = none := by
  have h := refresh_none_cases
    { dep := { scheduled := some 5 }, arr := { scheduled := some 8 },
      status_state := some "cancelled" } 10 5
  exact h.2.2 (by right; left; decide) 8 (by decide) (by decide)
    (by intro d hd; simp [bestTime] at hd; omega)

/-- Claim C5: for a record whose coarse state is not already
arrived/cancelled(/canceled)/landed, whose best arrival instant plus the
15-minute grace window is in the past, and whose `status_updated_at` is
earlier than that same threshold, the correction pass forces `status_state`
to `Arrived` and attaches an `assumed_arrival` error marker to the status. -/
theorem assumed_arrival_forces_arrived (f : Flight) (now a u : Int)
    (hstate : ¬ (stateLower f = "arrived" ∨ stateLower f = "cancelled" ∨
      stateLower f = "canceled" ∨ stateLower f = "landed"))
    (harr : bestTime f.arr = some a)
    (hnow : a + 15 * 60 < now)
    (hupd : f.status_updated_at = some u)
    (hu : u < a + 15 * 60) :
    (apply_assumed_arrival f now 15).status_state = some "Arrived" ∧
    ∃ st, (apply_assumed_arrival f now 15).status = some st ∧
      st.error = some "assumed_arrival" := by
  simp only [apply_assumed_arrival, harr, hupd]
  rw [if_neg hstate, if_neg (show ¬ now ≤ a + 15 * 60 by omega)]
  simp only [decide_eq_true_eq]
  rw [if_pos (by omega)]
  exact ⟨rfl, _, rfl, rfl⟩

/-- Witness for C5: an `active` flight with arrival scheduled at 1000, last
updated at 500, seen at `now = 3000` (more than 15 minutes past arrival), is
forced to `Arrived` with the `assumed_arrival` marker. -/
theorem assumed_arrival_forces_arrived_witness :
    (apply_assumed_arrival
      { status_state := some "active", arr := { scheduled := some 1000 },
        status_updated_at := some 500 } 3000 15).status_state = some "Arrived" ∧
    ∃ st, (apply_assumed_arrival
      { status_state := some "active", arr := { scheduled := some 1000 },
        status_updated_at := some 500 } 3000 15).status = some st ∧
      st.error = some "assumed_arrival" :=
  assumed_arrival_forces_arrived
    { status_state := some "active", arr := { scheduled := some 1000 },
      status_updated_at := some 500 } 3000 1000 500
    (by decide) (by decide) (by decide) (by decide) (by decide)

/-- Claim C8: the derived-field computation is idempotent — recomputing the
delay and duration fields on an unchanged record reproduces the record,
because the computation reads only the schedule and status blocks, which it
never writes. -/
theorem derived_fields_idempotent (f : Flight) (grace : Int) :
    computeDerived (computeDerived f grace) grace = computeDerived f grace := rfl

/-- Claim C9: the instant parser is total — on every input it returns an
instant or `none` (exceptions are caught in the source, so the embedding is
a total function into `Option`) — it accepts both `Z`-suffixed and
offset-suffixed ISO-8601 strings (agreeing across equivalent offsets),
passes through an already-typed instant, and returns `none` for null and
for unparseable strings. -/
theorem parse_dt_total_and_iso :
    (∀ v : PyVal, (∃ t, parse_dt v = some t) ∨ parse_dt v = none) ∧
    parse_dt (.pystr "2026-01-30T18:55:00Z") = some 1769799300 ∧
    parse_dt (.pystr "2026-01-30T18:55:00+00:00") = some 1769799300 ∧
    parse_dt (.pystr "2026-01-30T20:55:00+02:00") = some 1769799300 ∧
    parse_dt (.pydt 1769799300) = some 1769799300 ∧
    parse_dt .pynone = none ∧
    parse_dt (.pystr "") = none ∧
    parse_dt (.pystr "not-a-date") = none ∧
    parse_dt (.pystr "2026-13-01T00:00:00Z") = none := by
  refine ⟨?_, by decide, by decide, by decide, by decide, by decide, by decide,
    by decide, by decide⟩
  intro v
  rcases h : parse_dt v with _ | t
  · exact Or.inr rfl
  · exact Or.inl ⟨t, rfl⟩

/-- The spec's first delay example: scheduled arrival 2026-01-30T18:55:00Z,
estimated arrival 2026-01-30T19:12:00Z. -/
def delayedExampleFlight : Flight :=
  { arr := { scheduled := some 1769799300, estimated := some 1769800320 } }

/-- The spec's second delay example: scheduled arrival 2026-01-30T18:55:00Z,
estimated arrival 2026-01-30T19:02:00Z. -/
def onTimeExampleFlight : Flight :=
  { arr := { scheduled := some 1769799300, estimated := some 1769799720 } }

/-- Claim C6: the delay computation returns `Cancelled` with null minutes
first whenever the coarse state is cancelled/canceled; otherwise it uses the
arrival (scheduled, actual-or-estimated) pair when both exist, else the
departure pair, returning `Unknown`/null when neither pair is complete;
otherwise `minutes` is the rounded minute delta, labelled `Delayed` exactly
when it exceeds the grace threshold.  The spec's two concrete arrival
examples give `("Delayed", 17)` and `("On Time", 7)` at grace 10. -/
theorem delay_status_spec (f : Flight) (g : Int) :
    ((stateLower f = "cancelled" ∨ stateLower f = "canceled") →
      compute_delay_status f g = ("Cancelled", none)) ∧
    (¬ (stateLower f = "cancelled" ∨ stateLower f = "canceled") →
      ∀ s e, f.arr.scheduled = some s →
        (f.arr.actual.orElse fun _ => f.arr.estimated) = some e →
        compute_delay_status f g =
          (if pyRoundDiv60 (e - s) > g then "Delayed" else "On Time",
            some (pyRoundDiv60 (e - s)))) ∧
    (¬ (stateLower f = "cancelled" ∨ stateLower f = "canceled") →
      (f.arr.scheduled = none ∨ (f.arr.actual.orElse fun _ => f.arr.estimated) = none) →
      ∀ s e, f.dep.scheduled = some s →
        (f.dep.actual.orElse fun _ => f.dep.estimated) = some e →
        compute_delay_status f g =
          (if pyRoundDiv60 (e - s) > g then "Delayed" else "On Time",
            some (pyRoundDiv60 (e - s)))) ∧
    (¬ (stateLower f = "cancelled" ∨ stateLower f = "canceled") →
      (f.arr.scheduled = none ∨ (f.arr.actual.orElse fun _ => f.arr.estimated) = none) →
      (f.dep.scheduled = none ∨ (f.dep.actual.orElse fun _ => f.dep.estimated) = none) →
      compute_delay_status f g = ("Unknown", none)) ∧
    compute_delay_status delayedExampleFlight 10 = ("Delayed", some 17) ∧
    compute_delay_status onTimeExampleFlight 10 = ("On Time", some 7) := by
  refine ⟨?_, ?_, ?_, ?_, by decide, by decide⟩
  · intro hc
    simp only [compute_delay_status, if_pos hc]
  · intro hc s e hs he
    simp only [compute_delay_status, if_neg hc, hs, he]
    split_ifs <;> rfl
  · intro hc harr s e hs he
    rcases h2 : (f.arr.actual.orElse fun _ => f.arr.estimated) with _ | x <;>
      rcases h3 : f.arr.scheduled with _ | y <;>
      simp only [compute_delay_status, if_neg hc, hs, he, h2, h3] <;>
      first
        | (split_ifs <;> rfl)
        | (exfalso; rcases harr with harr | harr <;> simp_all)
  · intro hc harr hdep
    rcases h2 : (f.arr.actual.orElse fun _ => f.arr.estimated) with _ | x <;>
      rcases h3 : f.arr.scheduled with _ | y <;>
      rcases h4 : f.dep.scheduled with _ | z <;>
      rcases h5 : (f.dep.actual.orElse fun _ => f.dep.estimated) with _ | w <;>
      simp only [compute_delay_status, if_neg hc, h2, h3, h4, h5] <;>
      first
        | rfl
        | (exfalso
           rcases harr with harr | harr <;> rcases hdep with hdep | hdep <;> simp_all)

/-- Witness for C6: the cancelled branch and the arrival-pair branch applied
at the two concrete example flights. -/
theorem delay_status_spec_witness :
    compute_delay_status { status_state := some "cancelled" } 10 = ("Cancelled", none) ∧
    compute_delay_status delayedExampleFlight 10 = ("Delayed", some 17) := by
  constructor
  · exact (delay_status_spec { status_state := some "cancelled" } 10).1 (by left; decide)
  · have h := (delay_status_spec delayedExampleFlight 10).2.1 (by decide)
      1769799300 1769800320 rfl rfl
    rw [h]
    decide

/-- The spec's duration example: departure actual 2026-01-30T14:05:00Z and
arrival actual 2026-01-30T18:50:00Z. -/
def durationExampleFlight : Flight :=
  { dep := { actual := some 1769781900 }, arr := { actual := some 1769799000 } }

/-- Claim C7: a pairwise duration is null exactly when an endpoint is missing
or the delta is negative, and otherwise is the rounded minute delta; the
three duration fields use the scheduled, actual-or-estimated and actual-only
endpoint pairs respectively, and the best duration is the actual one if
present, else estimated, else scheduled.  The spec's concrete example gives
an actual duration of 285 minutes, which is also the best value. -/
theorem durations_spec :
    (∀ dep_dt arr_dt : Option Int,
      (duration_minutes dep_dt arr_dt = none ↔
        dep_dt = none ∨ arr_dt = none ∨
          ∃ d a, dep_dt = some d ∧ arr_dt = some a ∧ a - d < 0) ∧
      (∀ d a, dep_dt = some d → arr_dt = some a → 0 ≤ a - d →
        duration_minutes dep_dt arr_dt = some (pyRoundDiv60 (a - d)))) ∧
    (∀ f : Flight,
      (compute_durations f).duration_scheduled_minutes =
        duration_minutes f.dep.scheduled f.arr.scheduled ∧
      (compute_durations f).duration_estimated_minutes =
        duration_minutes (f.dep.actual.orElse fun _ => f.dep.estimated)
          (f.arr.actual.orElse fun _ => f.arr.estimated) ∧
      (compute_durations f).duration_actual_minutes =
        duration_minutes f.dep.actual f.arr.actual ∧
      (compute_durations f).duration_minutes =
        ((compute_durations f).duration_actual_minutes.orElse fun _ =>
          (compute_durations f).duration_estimated_minutes.orElse fun _ =>
            (compute_durations f).duration_scheduled_minutes)) ∧
    (compute_durations durationExampleFlight).duration_actual_minutes = some 285 ∧
    (compute_durations durationExampleFlight).duration_minutes = some 285 := by
  refine ⟨?_, fun f => ⟨rfl, rfl, rfl, rfl⟩, by decide, by decide⟩
  intro dep_dt arr_dt
  constructor
  · rcases dep_dt with _ | d <;> rcases arr_dt with _ | a <;>
      simp only [duration_minutes]
    · simp
    · simp
    · simp
    · constructor
      · intro h
        split_ifs at h with hneg
        exact Or.inr (Or.inr ⟨d, a, rfl, rfl, hneg⟩)
      · rintro (h | h | ⟨d2, a2, hd2, ha2, hneg⟩)
        · exact Option.noConfusion h
        · exact Option.noConfusion h
        · obtain rfl := Option.some.inj hd2
          obtain rfl := Option.some.inj ha2
          rw [if_pos hneg]
  · rintro d a rfl rfl hge
    simp only [duration_minutes]
    rw [if_neg (by omega)]

/-- Witness for C7: the pairwise rule applied at the concrete example's
actual endpoints yields 285 minutes. -/
theorem durations_spec_witness :
    duration_minutes (some 1769781900) (some 1769799000) = some (pyRoundDiv60 17100) := by
  have h := (durations_spec.1 (some 1769781900) (some 1769799000)).2
    1769781900 1769799000 rfl rfl (by omega)
  have he : (1769799000 : Int) - 1769781900 = 17100 := by norm_num
  rw [he] at h
  exact h

/-- A record whose status was just stamped at `now` is never touched by the
assumed-arrival pass: the provider-silence guard sees the fresh update. -/
theorem apply_assumed_arrival_noop (f : Flight) (now grace : Int)
    (h : f.status_updated_at = some now) :
    apply_assumed_arrival f now grace = f := by
  simp only [apply_assumed_arrival, h]
  split_ifs with h1
  · rfl
  · rcases harr : bestTime f.arr with _ | a <;> simp only [harr]
    split_ifs with h2 h3
    · rfl
    · exfalso
      simp only [decide_eq_true_eq] at h3
      omega
    · rfl

/-- Claim C3: in the fetch pass, a payload carrying an error marker and none
of the informative fields leaves a prior non-empty status in place with only
the error metadata (and a defaulted provider) spliced in, and in particular
`status_state` is unchanged. -/
theorem fetch_no_signal_preserves (f : Flight) (status : Status) (pos : Option String)
    (now grace : Int) (sp pp : String) (p : Status)
    (herr : status.error.isSome = true)
    (h1 : status.provider_state = none) (h2 : status.dep_estimated = none)
    (h3 : status.arr_estimated = none) (h4 : status.dep_actual = none)
    (h5 : status.arr_actual = none) (h6 : status.position = none)
    (h7 : status.arr_iata = none) (h8 : status.dep_iata = none)
    (hprev : f.status = some p) (hne : p.nonEmpty = true) :
    (fetchMergeStep f (some status) pos now sp pp grace).status_state = f.status_state ∧
    ∃ q, (fetchMergeStep f (some status) pos now sp pp grace).status = some q ∧
      q.state = p.state ∧ q.provider_state = p.provider_state ∧
      q.dep_scheduled = p.dep_scheduled ∧ q.dep_estimated = p.dep_estimated ∧
      q.dep_actual = p.dep_actual ∧ q.arr_scheduled = p.arr_scheduled ∧
      q.arr_estimated = p.arr_estimated ∧ q.arr_actual = p.arr_actual ∧
      q.dep_iata = p.dep_iata ∧ q.arr_iata = p.arr_iata ∧
      q.position = p.position ∧ q.position_provider = p.position_provider ∧
      q.error = status.error := by
  have hsig : hasSignal status = false := by
    simp [hasSignal, h1, h2, h3, h4, h5, h6, h7, h8]
  obtain ⟨e, he⟩ := Option.isSome_iff_exists.mp herr
  have hstep : fetchMergeStep f (some status) pos now sp pp grace =
      computeDerived { f with
        status := some (spliceErrorMeta { p with provider := some (p.provider.getD sp) } status)
        status_updated_at := some now } grace := by
    simp only [fetchMergeStep, hprev, Option.getD_some, herr, hsig, hne, Bool.not_false,
      Bool.and_self, if_true]
    exact congrArg (fun x => computeDerived x grace) (apply_assumed_arrival_noop _ now 15 rfl)
  rw [hstep]
  refine ⟨rfl, spliceErrorMeta { p with provider := some (p.provider.getD sp) } status, rfl,
    rfl, rfl, rfl, rfl, rfl, rfl, rfl, rfl, rfl, rfl, rfl, rfl, ?_⟩
  simp [spliceErrorMeta, he]

/-- A flight holding a prior good status, for the no-signal test. -/
def noSignalFlight : Flight :=
  { status_state := some "active", status := some { state := some "active" } }

/-- A fetch result carrying only an error marker. -/
def rateLimitedStatus : Status := { error := some "rate_limited" }

/-- Witness for C3: with a prior `active` status and a fetch returning only
`error = rate_limited`, the record keeps `status_state = active` and the
status keeps its state with the error spliced in. -/
theorem fetch_no_signal_preserves_witness :
    (fetchMergeStep noSignalFlight (some rateLimitedStatus) none 1000
      "flightradar24" "flightradar24" 10).status_state = some "active" ∧
    ∃ q, (fetchMergeStep noSignalFlight (some rateLimitedStatus) none 1000
        "flightradar24" "flightradar24" 10).status = some q ∧
      q.state = some "active" ∧ q.error = some "rate_limited" := by
  have h := fetch_no_signal_preserves noSignalFlight rateLimitedStatus none 1000 10
    "flightradar24" "flightradar24" { state := some "active" }
    (by decide) rfl rfl rfl rfl rfl rfl rfl rfl rfl (by decide)
  obtain ⟨hs, q, hq, hst, _, _, _, _, _, _, _, _, _, _, _, herr2⟩ := h
  exact ⟨hs, q, hq, by rw [hst], by rw [herr2]; rfl⟩

/-- The record, cached payload and cache entry of the date-mismatch failing
input: the record's scheduled departure is on 2026-01-30 (UTC) while the
cached status's `dep_scheduled` is on 2026-01-31. -/
def mismatchFlight : Flight := { dep := { scheduled := some 1769799300 } }

/-- The cached status for a different operating date. -/
def mismatchStatus : Status :=
  { provider := some "flightradar24", state := some "scheduled",
    dep_scheduled := some 1769885700 }

/-- The cache entry holding the mismatched status. -/
def mismatchEntry : CacheEntry :=
  { status := some mismatchStatus, updated_at := some 1769700000,
    next_check := some 1769800000 }

/-- Claim C2 evaluated at the failing input: the cached status's implied
operating date differs from the record's scheduled date, yet the apply-cached
pass does not discard the cache entry — the mismatch pre-check replaces the
status with a `date_mismatch` error dict, which then *passes* the later
mismatch eviction check and is applied onto the record (`popped = false`,
`applied` carries the error dict); and with the `status_provider` local not
yet bound (no earlier iteration assigned it), the same input raises instead
of evicting.  The claimed discard-and-refetch never happens. -/
theorem apply_cached_date_mismatch_bug :
    status_date_mismatch mismatchFlight mismatchStatus = true ∧
    (applyCachedStep mismatchFlight mismatchEntry (some "flightradar24")
        (some "flightradar24") 1769800000 10).map
      (fun o => (o.popped, o.applied.map fun s => s.error)) =
      Except.ok (false, some (some "date_mismatch")) ∧
    applyCachedStep mismatchFlight mismatchEntry (some "flightradar24") none
      1769800000 10 = Except.error () := by
  refine ⟨by decide, by rfl, by rfl⟩

end Theorems

end FlightStatus

